import Mathlib

/-!
# War (war.c): territories, combat and missions

A shallow embedding of the game logic of `war.c`.

* The map `Territorio *mapa` is a `List Territorio`; `mapa[i]` is `ler mapa i`
  and a field assignment `mapa[i].campo = v` is `setTropas` / `setCor` / `setNome`.
* `int` values are `Int`.  The only arithmetic on troop counts is a decrement
  of a value that was just tested to be greater than 1 (or at least 2), so no
  machine overflow can occur and no wrap-around is modelled.
* Every call of `rand()` is an explicit natural-number input (`rand()` returns
  a value in `[0, RAND_MAX]`).
* Console output is not modelled; `faseDeAtaque` returns which message path
  was taken, and the integers read by `scanf` are explicit inputs.
-/

namespace War

/-! ## Constants (`#define`) -/

def NUM_TERRITORIOS : Nat := 5
def NUM_CORES_EXERCITO : Nat := 3
def NUM_MISSOES : Nat := 2
def TROPAS_INICIAIS : Int := 10
def MISSAO_DESTRUIR_EXERCITO : Int := 0
def MISSAO_CONQUISTAR_TERRITORIOS : Int := 1
def TERRITORIOS_PARA_VENCER : Int := 3

/-! ## Data -/

/-- The struct `Territorio`: name, army colour (0 red, 1 blue, 2 green) and troops. -/
structure Territorio where
  nome : String
  cor_exercito : Int
  num_tropas : Int
deriving DecidableEq

/-- The struct `Missao`: kind (0 destroy an army, 1 conquer N territories), target, text. -/
structure Missao where
  tipo : Int
  alvo : Int
  descricao : String
deriving DecidableEq

/-- One zero-filled array cell, as `calloc` leaves it. -/
def Territorio.zerado : Territorio := ⟨"", 0, 0⟩

/-- The function `alocarMapa`: `calloc(NUM_TERRITORIOS, sizeof(Territorio))`. -/
def alocarMapa : List Territorio := List.replicate NUM_TERRITORIOS Territorio.zerado

/-- The read `mapa[i]`.  Every caller in the program checks `0 <= i < 5` first. -/
def ler (mapa : List Territorio) (i : Nat) : Territorio := mapa.getD i Territorio.zerado

/-- The assignment `strcpy(mapa[i].nome, s)`. -/
def setNome (mapa : List Territorio) (i : Nat) (s : String) : List Territorio :=
  mapa.set i { ler mapa i with nome := s }

/-- The assignment `mapa[i].cor_exercito = c`. -/
def setCor (mapa : List Territorio) (i : Nat) (c : Int) : List Territorio :=
  mapa.set i { ler mapa i with cor_exercito := c }

/-- The assignment `mapa[i].num_tropas = v`. -/
def setTropas (mapa : List Territorio) (i : Nat) (v : Int) : List Territorio :=
  mapa.set i { ler mapa i with num_tropas := v }

/-! ## inicializarTerritorios -/

/-- The local table `nomes` of `inicializarTerritorios`. -/
def nomes : List String := ["América", "Europa", "Ásia", "África", "Oceania"]

/-- The body of the `for` loop of `inicializarTerritorios` for one index `i`.
`r_cor` and `r_tropas` are the two `rand()` results of this iteration. -/
def inicializarUm (mapa : List Territorio) (i : Nat) (r_cor r_tropas : Nat) : List Territorio :=
  let m1 := setNome mapa i (nomes.getD i "")
  let m2 := setCor m1 i ((r_cor % NUM_CORES_EXERCITO : Nat) : Int)
  setTropas m2 i (TROPAS_INICIAIS + ((r_tropas % 6 : Nat) : Int))

/-- The loop `for (i = ...; i < NUM_TERRITORIOS; i++)` with `restantes` iterations
left; iteration `i` consumes the `rand()` results number `2*i` and `2*i+1`. -/
def inicializarLoop (rand : Nat → Nat) : Nat → Nat → List Territorio → List Territorio
  | _, 0, mapa => mapa
  | i, restantes + 1, mapa =>
      inicializarLoop rand (i + 1) restantes
        (inicializarUm mapa i (rand (2 * i)) (rand (2 * i + 1)))

/-- The function `inicializarTerritorios`; `rand n` is the `n`-th result of `rand()`. -/
def inicializarTerritorios (mapa : List Territorio) (rand : Nat → Nat) : List Territorio :=
  inicializarLoop rand 0 NUM_TERRITORIOS mapa

/-! ## simularAtaque -/

/-- One die: `(rand() % 6) + 1` where `r` is the result of `rand()`. -/
def rolarDado (r : Nat) : Int := ((r % 6 : Nat) : Int) + 1

/-- The function `simularAtaque`.  `r1` and `r2` are the results of its two `rand()` calls.
The two indices are natural numbers: the only caller, `faseDeAtaque`, passes indices it
has checked to be in 0..4. -/
def simularAtaque (mapa : List Territorio) (territorio_origem territorio_destino : Nat)
    (cor_jogador : Int) (r1 r2 : Nat) : List Territorio :=
  let dados_atacante := rolarDado r1
  let dados_defensor := rolarDado r2
  if (ler mapa territorio_origem).num_tropas < 2 then
    mapa
  else if dados_atacante > dados_defensor then
    if (ler mapa territorio_destino).num_tropas > 1 then
      setTropas mapa territorio_destino ((ler mapa territorio_destino).num_tropas - 1)
    else
      let m1 := setTropas mapa territorio_origem ((ler mapa territorio_origem).num_tropas - 1)
      let m2 := setTropas m1 territorio_destino 1
      setCor m2 territorio_destino cor_jogador
  else if dados_defensor > dados_atacante then
    if (ler mapa territorio_origem).num_tropas > 1 then
      setTropas mapa territorio_origem ((ler mapa territorio_origem).num_tropas - 1)
    else
      let m1 := setTropas mapa territorio_origem 0
      setCor m1 territorio_origem (-1)
  else
    mapa

/-! ## sortearMissao -/

/-- The local table `cores` of `sortearMissao`. -/
def cores : List String := ["Vermelho", "Azul", "Verde"]

/-- The function `sortearMissao`.  `r_tipo` is the result of its first `rand()` call and
`r_alvo` that of the second one, which is made only for the destroy-an-army mission.
The value returned by the C function is the field `tipo` of the result. -/
def sortearMissao (r_tipo r_alvo : Nat) : Missao :=
  let tipo : Int := ((r_tipo % 2 : Nat) : Int)
  if tipo = MISSAO_DESTRUIR_EXERCITO then
    let alvo := r_alvo % NUM_CORES_EXERCITO
    { tipo := tipo, alvo := (alvo : Int),
      descricao := "Destruir o exército " ++ cores.getD alvo ""
        ++ " (dominar todos os seus territórios)" }
  else
    { tipo := tipo, alvo := TERRITORIOS_PARA_VENCER,
      descricao := "Conquistar " ++ toString TERRITORIOS_PARA_VENCER
        ++ " territórios diferentes" }

/-! ## verificarVitoria -/

/-- The first loop of `verificarVitoria`, from index `i` with `restantes` iterations
left: `return 0` as soon as a territory of colour `alvo` is met, `return 1` after it. -/
def exercitoDestruido (mapa : List Territorio) (alvo : Int) : Nat → Nat → Int
  | _, 0 => 1
  | i, restantes + 1 =>
      if (ler mapa i).cor_exercito = alvo then 0
      else exercitoDestruido mapa alvo (i + 1) restantes

/-- The second loop of `verificarVitoria`, from index `i` with `restantes` iterations
left and the counter `territorios_conquistados` at `acc`. -/
def contarTerritorios (mapa : List Territorio) (cor : Int) : Nat → Nat → Int → Int
  | _, 0, acc => acc
  | i, restantes + 1, acc =>
      contarTerritorios mapa cor (i + 1) restantes
        (if (ler mapa i).cor_exercito = cor then acc + 1 else acc)

/-- The function `verificarVitoria`. -/
def verificarVitoria (mapa : List Territorio) (num_territorios : Int) (missao : Missao)
    (cor_jogador : Int) : Int :=
  if missao.tipo = MISSAO_DESTRUIR_EXERCITO then
    exercitoDestruido mapa missao.alvo 0 num_territorios.toNat
  else if missao.tipo = MISSAO_CONQUISTAR_TERRITORIOS then
    let territorios_conquistados := contarTerritorios mapa cor_jogador 0 num_territorios.toNat 0
    if territorios_conquistados ≥ missao.alvo then 1 else 0
  else
    0

/-! ## faseDeAtaque -/

/-- Which path `faseDeAtaque` took, named after the message it prints. -/
inductive Desfecho where
  /-- Message "Território inválido!" (printed for the origin and for the destination). -/
  | territorioInvalido
  /-- Message "Você não controla este território!". -/
  | naoControla
  /-- Message "Você não pode atacar o seu próprio território!". -/
  | proprioTerritorio
  /-- The call `simularAtaque(...)` was made. -/
  | batalha
deriving DecidableEq

/-- The function `faseDeAtaque`.  `territorio_origem` and `territorio_destino` are the
integers typed by the player (the second is read only if the first passes its two
checks); `r1`, `r2` are the `rand()` results `simularAtaque` uses if it is called. -/
def faseDeAtaque (mapa : List Territorio) (cor_jogador : Int)
    (territorio_origem territorio_destino : Int) (r1 r2 : Nat) : Desfecho × List Territorio :=
  if territorio_origem < 0 ∨ territorio_origem ≥ (NUM_TERRITORIOS : Int) then
    (Desfecho.territorioInvalido, mapa)
  else if (ler mapa territorio_origem.toNat).cor_exercito ≠ cor_jogador then
    (Desfecho.naoControla, mapa)
  else if territorio_destino < 0 ∨ territorio_destino ≥ (NUM_TERRITORIOS : Int) then
    (Desfecho.territorioInvalido, mapa)
  else if territorio_origem = territorio_destino then
    (Desfecho.proprioTerritorio, mapa)
  else
    (Desfecho.batalha,
      simularAtaque mapa territorio_origem.toNat territorio_destino.toNat cor_jogador r1 r2)

/-! ## The game of `main` -/

/-- What `main` holds between two menu choices. -/
structure Jogo where
  mapa : List Territorio
  cor_jogador : Int
  missao : Missao

/-- The setup of `main`: `alocarMapa`, `inicializarTerritorios` (`rand()` results 0 to 9),
`cor_jogador = rand() % NUM_CORES_EXERCITO` (result 10) and `sortearMissao` (results 11, 12). -/
def iniciarJogo (rand : Nat → Nat) : Jogo :=
  { mapa := inicializarTerritorios alocarMapa rand,
    cor_jogador := ((rand 10 % NUM_CORES_EXERCITO : Nat) : Int),
    missao := sortearMissao (rand 11) (rand 12) }

/-- One attack order of the player: the two integers typed and the two `rand()` results
available to the battle. -/
structure Ordem where
  origem : Int
  destino : Int
  r1 : Nat
  r2 : Nat

/-- The map after the menu choice 1 was taken once for each order of the list, in turn. -/
def jogar (mapa : List Territorio) (cor_jogador : Int) : List Ordem → List Territorio
  | [] => mapa
  | a :: resto =>
      jogar (faseDeAtaque mapa cor_jogador a.origem a.destino a.r1 a.r2).2 cor_jogador resto

/-! ## Predicates of the specification -/

/-- The data invariant of a map: no negative troop count, and a troop count of 0 exactly
on the territories whose owner is the neutral value -1. -/
def invariante (mapa : List Territorio) : Prop :=
  ∀ t ∈ mapa, 0 ≤ t.num_tropas ∧ (t.num_tropas = 0 ↔ t.cor_exercito = -1)

/-- The number of territories of the map whose owner is `cor`. -/
def possuidos (mapa : List Territorio) (cor : Int) : Nat :=
  mapa.countP (fun t => t.cor_exercito = cor)

/-- The mission predicate: the army `alvo` owns nothing (destroy mission), or the player
owns at least `alvo` territories (conquer mission). -/
def missaoCumprida (mapa : List Territorio) (missao : Missao) (cor_jogador : Int) : Prop :=
  (missao.tipo = MISSAO_DESTRUIR_EXERCITO ∧ ∀ t ∈ mapa, t.cor_exercito ≠ missao.alvo) ∨
  (missao.tipo = MISSAO_CONQUISTAR_TERRITORIOS ∧ (possuidos mapa cor_jogador : Int) ≥ missao.alvo)

/-- The owner is one of the three colours or the neutral value -1. -/
def corValida (t : Territorio) : Prop :=
  t.cor_exercito = 0 ∨ t.cor_exercito = 1 ∨ t.cor_exercito = 2 ∨ t.cor_exercito = -1

/-- The map of the game started with the `rand()` results `rand`, after the orders. -/
def partida (rand : Nat → Nat) (ordens : List Ordem) : List Territorio :=
  jogar (iniciarJogo rand).mapa (iniciarJogo rand).cor_jogador ordens

/-! ## Sample data -/

/-- The `rand()` results of a start where every territory is blue with 10 troops, the
player is red and the mission is to destroy the red army. -/
def randSemVermelho : Nat → Nat :=
  fun n => if n < 10 ∧ n % 2 = 0 then 1 else 0

/-- The `rand()` results of a start where the player is blue, owns territory 2 and has
the mission to destroy the blue army. -/
def randAzul : Nat → Nat :=
  fun n => if n = 11 then 0 else if n = 12 then 1 else n

/-- A map with territory 0 red with 10 troops and territory 1 blue with 1 troop; red owns
two territories (0 and 3). -/
def mapaExemplo : List Territorio :=
  [⟨"América", 0, 10⟩, ⟨"Europa", 1, 1⟩, ⟨"Ásia", 2, 12⟩, ⟨"África", 0, 13⟩, ⟨"Oceania", 2, 14⟩]

/-! ## Basic facts about reads and writes -/

theorem length_setTropas (mapa : List Territorio) (i : Nat) (v : Int) :
    (setTropas mapa i v).length = mapa.length := by
  simp [setTropas]

theorem length_setCor (mapa : List Territorio) (i : Nat) (c : Int) :
    (setCor mapa i c).length = mapa.length := by
  simp [setCor]

theorem length_setNome (mapa : List Territorio) (i : Nat) (s : String) :
    (setNome mapa i s).length = mapa.length := by
  simp [setNome]

theorem ler_set_eq (mapa : List Territorio) (i : Nat) (t : Territorio) (h : i < mapa.length) :
    ler (mapa.set i t) i = t := by
  simp [ler, List.getElem?_set, h]

theorem ler_set_ne (mapa : List Territorio) (i k : Nat) (t : Territorio) (h : i ≠ k) :
    ler (mapa.set i t) k = ler mapa k := by
  simp [ler, List.getElem?_set, h]

theorem ler_setTropas_eq (mapa : List Territorio) (i : Nat) (v : Int) (h : i < mapa.length) :
    ler (setTropas mapa i v) i = { ler mapa i with num_tropas := v } :=
  ler_set_eq mapa i _ h

theorem ler_setTropas_ne (mapa : List Territorio) (i k : Nat) (v : Int) (h : i ≠ k) :
    ler (setTropas mapa i v) k = ler mapa k :=
  ler_set_ne mapa i k _ h

theorem ler_setCor_eq (mapa : List Territorio) (i : Nat) (c : Int) (h : i < mapa.length) :
    ler (setCor mapa i c) i = { ler mapa i with cor_exercito := c } :=
  ler_set_eq mapa i _ h

theorem ler_setCor_ne (mapa : List Territorio) (i k : Nat) (c : Int) (h : i ≠ k) :
    ler (setCor mapa i c) k = ler mapa k :=
  ler_set_ne mapa i k _ h

theorem length_simularAtaque (mapa : List Territorio) (o d : Nat) (cor : Int) (r1 r2 : Nat) :
    (simularAtaque mapa o d cor r1 r2).length = mapa.length := by
  unfold simularAtaque
  simp only []
  split_ifs <;> simp [length_setTropas, length_setCor]

/-! ## The branches of simularAtaque -/

theorem ramo_sem_tropas (mapa : List Territorio) (o d : Nat) (cor : Int) (r1 r2 : Nat)
    (h : (ler mapa o).num_tropas < 2) : simularAtaque mapa o d cor r1 r2 = mapa := by
  simp only [simularAtaque, if_pos h]

theorem ramo_empate (mapa : List Territorio) (o d : Nat) (cor : Int) (r1 r2 : Nat)
    (h : rolarDado r1 = rolarDado r2) : simularAtaque mapa o d cor r1 r2 = mapa := by
  simp only [simularAtaque, h, gt_iff_lt, lt_irrefl, if_false, ite_self]

theorem ramo_baixa_destino (mapa : List Territorio) (o d : Nat) (cor : Int)
    (r1 r2 : Nat) (ht : (ler mapa o).num_tropas ≥ 2) (hdados : rolarDado r1 > rolarDado r2)
    (hdest : (ler mapa d).num_tropas > 1) :
    simularAtaque mapa o d cor r1 r2 = setTropas mapa d ((ler mapa d).num_tropas - 1) := by
  simp only [simularAtaque, if_neg (not_lt.mpr ht), if_pos hdados, if_pos hdest]

theorem ramo_conquista (mapa : List Territorio) (o d : Nat) (cor : Int)
    (r1 r2 : Nat) (ht : (ler mapa o).num_tropas ≥ 2) (hdados : rolarDado r1 > rolarDado r2)
    (hdest : ¬ (ler mapa d).num_tropas > 1) :
    simularAtaque mapa o d cor r1 r2 =
      setCor (setTropas (setTropas mapa o ((ler mapa o).num_tropas - 1)) d 1) d cor := by
  simp only [simularAtaque, if_neg (not_lt.mpr ht), if_pos hdados, if_neg hdest]

theorem ramo_baixa_origem (mapa : List Territorio) (o d : Nat) (cor : Int)
    (r1 r2 : Nat) (ht : (ler mapa o).num_tropas ≥ 2) (hdados : rolarDado r2 > rolarDado r1) :
    simularAtaque mapa o d cor r1 r2 = setTropas mapa o ((ler mapa o).num_tropas - 1) := by
  have h1 : ¬ rolarDado r1 > rolarDado r2 := not_lt.mpr (le_of_lt hdados)
  have h2 : (ler mapa o).num_tropas > 1 := by omega
  simp only [simularAtaque, if_neg (not_lt.mpr ht), if_neg h1, if_pos hdados, if_pos h2]

/-- The five possible results of `simularAtaque`, each with the condition it needs. -/
theorem ramos_simularAtaque (mapa : List Territorio) (o d : Nat) (cor : Int) (r1 r2 : Nat) :
    simularAtaque mapa o d cor r1 r2 = mapa ∨
    ((ler mapa o).num_tropas ≥ 2 ∧ (ler mapa d).num_tropas > 1 ∧
      simularAtaque mapa o d cor r1 r2 = setTropas mapa d ((ler mapa d).num_tropas - 1)) ∨
    ((ler mapa o).num_tropas ≥ 2 ∧ ¬ (ler mapa d).num_tropas > 1 ∧
      simularAtaque mapa o d cor r1 r2 =
        setCor (setTropas (setTropas mapa o ((ler mapa o).num_tropas - 1)) d 1) d cor) ∨
    ((ler mapa o).num_tropas ≥ 2 ∧
      simularAtaque mapa o d cor r1 r2 = setTropas mapa o ((ler mapa o).num_tropas - 1)) := by
  by_cases ht : (ler mapa o).num_tropas < 2
  · exact Or.inl (ramo_sem_tropas mapa o d cor r1 r2 ht)
  · have ht2 : (ler mapa o).num_tropas ≥ 2 := not_lt.mp ht
    rcases lt_trichotomy (rolarDado r1) (rolarDado r2) with h | h | h
    · exact Or.inr (Or.inr (Or.inr ⟨ht2, ramo_baixa_origem mapa o d cor r1 r2 ht2 h⟩))
    · exact Or.inl (ramo_empate mapa o d cor r1 r2 h)
    · by_cases hdest : (ler mapa d).num_tropas > 1
      · exact Or.inr (Or.inl ⟨ht2, hdest,
          ramo_baixa_destino mapa o d cor r1 r2 ht2 h hdest⟩)
      · exact Or.inr (Or.inr (Or.inl ⟨ht2, hdest,
          ramo_conquista mapa o d cor r1 r2 ht2 h hdest⟩))

/-- What a conquest leaves in the destination, in the origin and elsewhere. -/
theorem ler_conquista (mapa : List Territorio) (o d : Nat) (cor v : Int)
    (ho : o < mapa.length) (hd : d < mapa.length) (hne : o ≠ d) :
    ler (setCor (setTropas (setTropas mapa o v) d 1) d cor) d
        = { ler mapa d with num_tropas := 1, cor_exercito := cor } ∧
    ler (setCor (setTropas (setTropas mapa o v) d 1) d cor) o
        = { ler mapa o with num_tropas := v } ∧
    ∀ k, k ≠ o → k ≠ d →
      ler (setCor (setTropas (setTropas mapa o v) d 1) d cor) k = ler mapa k := by
  have hd1 : d < (setTropas mapa o v).length := by rw [length_setTropas]; exact hd
  have hd2 : d < (setTropas (setTropas mapa o v) d 1).length := by
    rw [length_setTropas]; exact hd1
  refine ⟨?_, ?_, ?_⟩
  · rw [ler_setCor_eq _ _ _ hd2, ler_setTropas_eq _ _ _ hd1, ler_setTropas_ne _ _ _ _ hne]
  · rw [ler_setCor_ne _ _ _ _ (Ne.symm hne), ler_setTropas_ne _ _ _ _ (Ne.symm hne),
      ler_setTropas_eq _ _ _ ho]
  · intro k hko hkd
    rw [ler_setCor_ne _ _ _ _ (Ne.symm hkd), ler_setTropas_ne _ _ _ _ (Ne.symm hkd),
      ler_setTropas_ne _ _ _ _ (Ne.symm hko)]

/-! ## Postconditions of simularAtaque -/

/-- Claim C1: when the origin has at least 2 troops and the attacker's die is the higher
one, an attack between two distinct territories of the map either (destination with more
than 1 troop) takes exactly one troop from the destination and changes nothing else, or
(destination with exactly 1 troop) gives the destination to the attacker's colour with 1
troop, takes exactly one troop from the origin and changes nothing else. -/
theorem simularAtaque_atacante_vence (mapa : List Territorio) (o d : Nat) (cor : Int)
    (r1 r2 : Nat) (ho : o < mapa.length) (hd : d < mapa.length) (hne : o ≠ d)
    (hdados : rolarDado r1 > rolarDado r2) (ht : (ler mapa o).num_tropas ≥ 2) :
    ((ler mapa d).num_tropas > 1 →
      (ler (simularAtaque mapa o d cor r1 r2) d).num_tropas = (ler mapa d).num_tropas - 1 ∧
      (ler (simularAtaque mapa o d cor r1 r2) d).cor_exercito = (ler mapa d).cor_exercito ∧
      (ler (simularAtaque mapa o d cor r1 r2) d).nome = (ler mapa d).nome ∧
      ler (simularAtaque mapa o d cor r1 r2) o = ler mapa o ∧
      (∀ k, k ≠ o → k ≠ d → ler (simularAtaque mapa o d cor r1 r2) k = ler mapa k) ∧
      (simularAtaque mapa o d cor r1 r2).length = mapa.length) ∧
    ((ler mapa d).num_tropas = 1 →
      (ler (simularAtaque mapa o d cor r1 r2) d).cor_exercito = cor ∧
      (ler (simularAtaque mapa o d cor r1 r2) d).num_tropas = 1 ∧
      (ler (simularAtaque mapa o d cor r1 r2) d).nome = (ler mapa d).nome ∧
      (ler (simularAtaque mapa o d cor r1 r2) o).num_tropas = (ler mapa o).num_tropas - 1 ∧
      (ler (simularAtaque mapa o d cor r1 r2) o).cor_exercito = (ler mapa o).cor_exercito ∧
      (ler (simularAtaque mapa o d cor r1 r2) o).nome = (ler mapa o).nome ∧
      (∀ k, k ≠ o → k ≠ d → ler (simularAtaque mapa o d cor r1 r2) k = ler mapa k) ∧
      (simularAtaque mapa o d cor r1 r2).length = mapa.length) := by
  refine ⟨fun hdest => ?_, fun hdest => ?_⟩
  · have hlen := length_simularAtaque mapa o d cor r1 r2
    rw [ramo_baixa_destino mapa o d cor r1 r2 ht hdados hdest] at hlen ⊢
    refine ⟨?_, ?_, ?_, ?_, ?_, hlen⟩
    · rw [ler_setTropas_eq _ _ _ hd]
    · rw [ler_setTropas_eq _ _ _ hd]
    · rw [ler_setTropas_eq _ _ _ hd]
    · exact ler_setTropas_ne _ _ _ _ (Ne.symm hne)
    · intro k _ hkd
      exact ler_setTropas_ne _ _ _ _ (Ne.symm hkd)
  · have hlen := length_simularAtaque mapa o d cor r1 r2
    have hnot : ¬ (ler mapa d).num_tropas > 1 := by omega
    rw [ramo_conquista mapa o d cor r1 r2 ht hdados hnot] at hlen ⊢
    obtain ⟨h1, h2, h3⟩ := ler_conquista mapa o d cor ((ler mapa o).num_tropas - 1) ho hd hne
    refine ⟨?_, ?_, ?_, ?_, ?_, ?_, h3, hlen⟩
    · rw [h1]
    · rw [h1]
    · rw [h1]
    · rw [h2]
    · rw [h2]
    · rw [h2]

/-- Witness for C1: territory 0 red with 10 troops attacks territory 1 blue with 1 troop,
dice 6 against 1; territory 1 becomes red with 1 troop and territory 0 drops to 9. -/
theorem simularAtaque_atacante_vence_witness :
    rolarDado 5 = 6 ∧ rolarDado 0 = 1 ∧
    (ler (simularAtaque mapaExemplo 0 1 0 5 0) 1).cor_exercito = 0 ∧
    (ler (simularAtaque mapaExemplo 0 1 0 5 0) 1).num_tropas = 1 ∧
    (ler (simularAtaque mapaExemplo 0 1 0 5 0) 0).num_tropas = 9 :=
  have h := (simularAtaque_atacante_vence mapaExemplo 0 1 0 5 0 (by decide) (by decide)
    (by decide) (by decide) (by decide)).2 (by decide)
  ⟨by decide, by decide, h.1, h.2.1, h.2.2.2.1⟩

/-- Claim C2: when the origin has at least 2 troops and the defender's die is the higher
one, an attack between two distinct territories of the map takes exactly one troop from
the origin, keeps the origin's owner, and leaves the destination and every other
territory unchanged. -/
theorem simularAtaque_defensor_vence (mapa : List Territorio) (o d : Nat) (cor : Int)
    (r1 r2 : Nat) (ho : o < mapa.length) (hd : d < mapa.length) (hne : o ≠ d)
    (hdados : rolarDado r2 > rolarDado r1) (ht : (ler mapa o).num_tropas ≥ 2) :
    (ler (simularAtaque mapa o d cor r1 r2) o).num_tropas = (ler mapa o).num_tropas - 1 ∧
    (ler (simularAtaque mapa o d cor r1 r2) o).cor_exercito = (ler mapa o).cor_exercito ∧
    (ler (simularAtaque mapa o d cor r1 r2) o).nome = (ler mapa o).nome ∧
    ler (simularAtaque mapa o d cor r1 r2) d = ler mapa d ∧
    (∀ k, k ≠ o → k ≠ d → ler (simularAtaque mapa o d cor r1 r2) k = ler mapa k) ∧
    (simularAtaque mapa o d cor r1 r2).length = mapa.length := by
  have hlen := length_simularAtaque mapa o d cor r1 r2
  have _hd := hd
  rw [ramo_baixa_origem mapa o d cor r1 r2 ht hdados] at hlen ⊢
  refine ⟨?_, ?_, ?_, ?_, ?_, hlen⟩
  · rw [ler_setTropas_eq _ _ _ ho]
  · rw [ler_setTropas_eq _ _ _ ho]
  · rw [ler_setTropas_eq _ _ _ ho]
  · exact ler_setTropas_ne _ _ _ _ hne
  · intro k hko _
    exact ler_setTropas_ne _ _ _ _ (Ne.symm hko)

/-- Witness for C2: territory 0 (10 troops) attacks territory 1 with dice 1 against 6. -/
theorem simularAtaque_defensor_vence_witness :
    (ler (simularAtaque mapaExemplo 0 1 0 0 5) 0).num_tropas = 10 - 1 ∧
    ler (simularAtaque mapaExemplo 0 1 0 0 5) 1 = ler mapaExemplo 1 :=
  have h := simularAtaque_defensor_vence mapaExemplo 0 1 0 0 5 (by decide) (by decide)
    (by decide) (by decide) (by decide)
  ⟨h.1, h.2.2.2.1⟩

/-- Claim C3: if the origin territory has fewer than 2 troops, an attack between two
territories of the map leaves the whole map (every name, owner and troop count)
unchanged, whatever the colour and the dice. -/
theorem simularAtaque_tropas_insuficientes (mapa : List Territorio) (o d : Nat) (cor : Int)
    (r1 r2 : Nat) (ho : o < mapa.length) (hd : d < mapa.length)
    (ht : (ler mapa o).num_tropas < 2) :
    simularAtaque mapa o d cor r1 r2 = mapa := by
  have _ho := ho
  have _hd := hd
  exact ramo_sem_tropas mapa o d cor r1 r2 ht

/-- Witness for C3: territory 1 of the sample map has a single troop. -/
theorem simularAtaque_tropas_insuficientes_witness :
    (ler mapaExemplo 1).num_tropas = 1 ∧ simularAtaque mapaExemplo 1 0 1 5 0 = mapaExemplo :=
  ⟨by decide, simularAtaque_tropas_insuficientes mapaExemplo 1 0 1 5 0 (by decide) (by decide)
    (by decide)⟩

/-- Claim C4: with equal dice an attack between two territories of the map leaves the
whole map unchanged, whatever the troop counts and the colour. -/
theorem simularAtaque_empate_inalterado (mapa : List Territorio) (o d : Nat) (cor : Int)
    (r1 r2 : Nat) (ho : o < mapa.length) (hd : d < mapa.length)
    (hdados : rolarDado r1 = rolarDado r2) :
    simularAtaque mapa o d cor r1 r2 = mapa := by
  have _ho := ho
  have _hd := hd
  exact ramo_empate mapa o d cor r1 r2 hdados

/-- Witness for C4: dice 4 against 4 (from the `rand()` results 3 and 9). -/
theorem simularAtaque_empate_inalterado_witness :
    rolarDado 3 = 4 ∧ rolarDado 9 = 4 ∧ simularAtaque mapaExemplo 0 1 0 3 9 = mapaExemplo :=
  ⟨by decide, by decide, simularAtaque_empate_inalterado mapaExemplo 0 1 0 3 9 (by decide)
    (by decide) (by decide)⟩

/-! ## verificarVitoria and the mission predicate -/

theorem ler_meio (pre suf : List Territorio) (t : Territorio) :
    ler (pre ++ t :: suf) pre.length = t := by
  induction pre with
  | nil => rfl
  | cons a pre ih => simpa [ler] using ih

theorem exercitoDestruido_sufixo (alvo : Int) (suf : List Territorio) :
    ∀ pre : List Territorio,
      (exercitoDestruido (pre ++ suf) alvo pre.length suf.length = 1 ↔
        ∀ t ∈ suf, t.cor_exercito ≠ alvo) ∧
      (exercitoDestruido (pre ++ suf) alvo pre.length suf.length = 0 ∨
        exercitoDestruido (pre ++ suf) alvo pre.length suf.length = 1) := by
  induction suf with
  | nil => intro pre; simp [exercitoDestruido]
  | cons t suf ih =>
    intro pre
    have h := ih (pre ++ [t])
    simp only [List.append_assoc, List.singleton_append, List.length_append,
      List.length_singleton] at h
    simp only [List.length_cons, exercitoDestruido, ler_meio]
    by_cases hc : t.cor_exercito = alvo
    · simp [hc]
    · simp only [if_neg hc, List.mem_cons, forall_eq_or_imp, ne_eq, hc, not_false_eq_true,
        true_and]
      exact h

theorem contarTerritorios_sufixo (cor : Int) (suf : List Territorio) :
    ∀ (pre : List Territorio) (acc : Int),
      contarTerritorios (pre ++ suf) cor pre.length suf.length acc
        = acc + (possuidos suf cor : Int) := by
  induction suf with
  | nil => intro pre acc; simp [contarTerritorios, possuidos]
  | cons t suf ih =>
    intro pre acc
    have h := ih (pre ++ [t])
    simp only [List.append_assoc, List.singleton_append, List.length_append,
      List.length_singleton] at h
    simp only [List.length_cons, contarTerritorios, ler_meio, h]
    by_cases hc : t.cor_exercito = cor
    · simp [hc, possuidos, List.countP_cons]
      ring
    · simp [hc, possuidos, List.countP_cons]

/-- The counting loop of `verificarVitoria` over the whole map counts the owned territories. -/
theorem contarTerritorios_total (mapa : List Territorio) (cor : Int) :
    contarTerritorios mapa cor 0 mapa.length 0 = (possuidos mapa cor : Int) := by
  have h := contarTerritorios_sufixo cor mapa [] 0
  simpa using h

/-- The search loop of `verificarVitoria` over the whole map. -/
theorem exercitoDestruido_total (mapa : List Territorio) (alvo : Int) :
    (exercitoDestruido mapa alvo 0 mapa.length = 1 ↔ ∀ t ∈ mapa, t.cor_exercito ≠ alvo) ∧
    (exercitoDestruido mapa alvo 0 mapa.length = 0 ∨
      exercitoDestruido mapa alvo 0 mapa.length = 1) := by
  have h := exercitoDestruido_sufixo alvo mapa []
  simpa using h

/-- The result of `verificarVitoria` on a map of `num_territorios` territories. -/
theorem verificarVitoria_resultado (mapa : List Territorio) (n : Int) (missao : Missao)
    (cor : Int) (hn : n = (mapa.length : Int)) :
    (verificarVitoria mapa n missao cor = 1 ↔ missaoCumprida mapa missao cor) ∧
    (verificarVitoria mapa n missao cor = 0 ↔ ¬ missaoCumprida mapa missao cor) := by
  subst hn
  have hd := exercitoDestruido_total mapa missao.alvo
  have hc := contarTerritorios_total mapa cor
  simp only [verificarVitoria, missaoCumprida, Int.toNat_ofNat, hc,
    MISSAO_DESTRUIR_EXERCITO, MISSAO_CONQUISTAR_TERRITORIOS]
  by_cases h0 : missao.tipo = 0
  · have h01 : ¬ ((0 : Int) = 1) := by decide
    simp only [h0, if_true, true_and, h01, false_and, or_false]
    refine ⟨hd.1, ?_⟩
    rcases hd.2 with h | h
    · simp only [h, true_iff]
      intro hall
      have := hd.1.mpr hall
      omega
    · simp only [h, one_ne_zero, false_iff, not_not]
      exact hd.1.mp h
  · by_cases h1 : missao.tipo = 1
    · simp only [h0, if_false, h1, if_true, false_and, true_and, false_or]
      by_cases hge : (possuidos mapa cor : Int) ≥ missao.alvo
      · simp [hge]
      · simp [hge]
    · simp [h0, h1]

/-- Claim C5: on a map of `num_territorios` territories `verificarVitoria` returns 1
exactly when the mission predicate holds (destroy mission and no territory owned by the
target colour, or conquer mission and at least `alvo` territories owned by the player),
and returns 0 exactly when it does not. -/
theorem verificarVitoria_predicado (mapa : List Territorio) (num_territorios : Int)
    (missao : Missao) (cor_jogador : Int) (hn : num_territorios = (mapa.length : Int)) :
    (verificarVitoria mapa num_territorios missao cor_jogador = 1 ↔
      ((missao.tipo = MISSAO_DESTRUIR_EXERCITO ∧ ∀ t ∈ mapa, t.cor_exercito ≠ missao.alvo) ∨
       (missao.tipo = MISSAO_CONQUISTAR_TERRITORIOS ∧
         (possuidos mapa cor_jogador : Int) ≥ missao.alvo))) ∧
    (verificarVitoria mapa num_territorios missao cor_jogador = 0 ↔
      ¬ ((missao.tipo = MISSAO_DESTRUIR_EXERCITO ∧ ∀ t ∈ mapa, t.cor_exercito ≠ missao.alvo) ∨
         (missao.tipo = MISSAO_CONQUISTAR_TERRITORIOS ∧
           (possuidos mapa cor_jogador : Int) ≥ missao.alvo))) :=
  verificarVitoria_resultado mapa num_territorios missao cor_jogador hn

/-- Witness for C5: conquer mission with target 3; red owns 2 territories of the sample
map (result 0) and 3 after conquering territory 1 (result 1). -/
theorem verificarVitoria_predicado_witness :
    (sortearMissao 1 0).tipo = MISSAO_CONQUISTAR_TERRITORIOS ∧ (sortearMissao 1 0).alvo = 3 ∧
    possuidos mapaExemplo 0 = 2 ∧
    verificarVitoria mapaExemplo 5 (sortearMissao 1 0) 0 = 0 ∧
    possuidos (simularAtaque mapaExemplo 0 1 0 5 0) 0 = 3 ∧
    verificarVitoria (simularAtaque mapaExemplo 0 1 0 5 0) 5 (sortearMissao 1 0) 0 = 1 :=
  ⟨by decide, by decide, by decide,
    (verificarVitoria_predicado mapaExemplo 5 (sortearMissao 1 0) 0 (by decide)).2.mpr
      (by decide),
    by decide,
    (verificarVitoria_predicado (simularAtaque mapaExemplo 0 1 0 5 0) 5 (sortearMissao 1 0) 0
      (by decide)).1.mpr (by decide)⟩

/-! ## Pointwise description of an attack -/

theorem ler_eq_getElem (mapa : List Territorio) (k : Nat) (hk : k < mapa.length) :
    ler mapa k = mapa[k] := by
  simp [ler, hk]

theorem todos_iff_ler (Q : Territorio → Prop) (mapa : List Territorio) :
    (∀ t ∈ mapa, Q t) ↔ ∀ k, k < mapa.length → Q (ler mapa k) := by
  constructor
  · intro h k hk
    rw [ler_eq_getElem mapa k hk]
    exact h _ (List.getElem_mem hk)
  · intro h t ht
    obtain ⟨k, hk, rfl⟩ := List.getElem_of_mem ht
    rw [← ler_eq_getElem mapa k hk]
    exact h k hk

/-- After an attack between two distinct territories of the map, every cell is either
untouched, or has lost one troop of more than one, or is the conquered destination. -/
theorem simularAtaque_pontual (mapa : List Territorio) (o d : Nat) (cor : Int) (r1 r2 : Nat)
    (ho : o < mapa.length) (hd : d < mapa.length) (hne : o ≠ d) (k : Nat) :
    ler (simularAtaque mapa o d cor r1 r2) k = ler mapa k ∨
    ((ler mapa k).num_tropas > 1 ∧
      ler (simularAtaque mapa o d cor r1 r2) k
        = { ler mapa k with num_tropas := (ler mapa k).num_tropas - 1 }) ∨
    (k = d ∧
      ler (simularAtaque mapa o d cor r1 r2) k
        = { ler mapa k with num_tropas := 1, cor_exercito := cor }) := by
  rcases ramos_simularAtaque mapa o d cor r1 r2 with h | ⟨_, hdest, h⟩ | ⟨ht, _, h⟩ | ⟨ht, h⟩
  · exact Or.inl (by rw [h])
  · rw [h]
    by_cases hk : d = k
    · subst hk
      exact Or.inr (Or.inl ⟨hdest, ler_setTropas_eq _ _ _ hd⟩)
    · exact Or.inl (ler_setTropas_ne _ _ _ _ hk)
  · rw [h]
    obtain ⟨h1, h2, h3⟩ := ler_conquista mapa o d cor ((ler mapa o).num_tropas - 1) ho hd hne
    by_cases hkd : k = d
    · subst hkd
      exact Or.inr (Or.inr ⟨rfl, h1⟩)
    · by_cases hko : k = o
      · subst hko
        exact Or.inr (Or.inl ⟨by omega, h2⟩)
      · exact Or.inl (h3 k hko hkd)
  · rw [h]
    by_cases hk : o = k
    · subst hk
      exact Or.inr (Or.inl ⟨by omega, ler_setTropas_eq _ _ _ ho⟩)
    · exact Or.inl (ler_setTropas_ne _ _ _ _ hk)

/-! ## Number of territories of a colour -/

theorem possuidos_set_ge (cor : Int) (t : Territorio) :
    ∀ (mapa : List Territorio) (i : Nat),
      ((ler mapa i).cor_exercito = cor → t.cor_exercito = cor) →
      possuidos mapa cor ≤ possuidos (mapa.set i t) cor := by
  intro mapa
  induction mapa with
  | nil => intro i _; simp
  | cons a l ih =>
    intro i h
    cases i with
    | zero =>
      have h0 : a.cor_exercito = cor → t.cor_exercito = cor := h
      simp only [List.set_cons_zero, possuidos, List.countP_cons]
      by_cases ha : a.cor_exercito = cor
      · simp [ha, h0 ha]
      · simp only [ha, decide_False, Bool.false_eq_true, if_false, add_zero]
        exact Nat.le_add_right _ _
    | succ j =>
      have hj : (ler l j).cor_exercito = cor → t.cor_exercito = cor := h
      have := ih j hj
      simp only [List.set_cons_succ, possuidos, List.countP_cons] at this ⊢
      omega

theorem possuidos_setTropas (mapa : List Territorio) (i : Nat) (v cor : Int) :
    possuidos mapa cor ≤ possuidos (setTropas mapa i v) cor :=
  possuidos_set_ge cor _ mapa i (fun h => h)

theorem possuidos_setCor (mapa : List Territorio) (i : Nat) (cor : Int) :
    possuidos mapa cor ≤ possuidos (setCor mapa i cor) cor :=
  possuidos_set_ge cor _ mapa i (fun _ => rfl)

/-- An attack never lowers the number of territories of the attacker's colour. -/
theorem possuidos_simularAtaque (mapa : List Territorio) (o d : Nat) (cor : Int)
    (r1 r2 : Nat) :
    possuidos mapa cor ≤ possuidos (simularAtaque mapa o d cor r1 r2) cor := by
  rcases ramos_simularAtaque mapa o d cor r1 r2 with h | ⟨_, _, h⟩ | ⟨_, _, h⟩ | ⟨_, h⟩
  · rw [h]
  · rw [h]; exact possuidos_setTropas _ _ _ _
  · rw [h]
    exact le_trans (possuidos_setTropas _ _ _ _)
      (le_trans (possuidos_setTropas _ _ _ _) (possuidos_setCor _ _ _))
  · rw [h]; exact possuidos_setTropas _ _ _ _

/-- Claim C10: an attack between two distinct territories of the map with a colour in
0, 1, 2 keeps the owner of the origin, gives no territory the neutral owner -1 and no
territory the troop count 0 (a field that changed holds another value), and the number
of territories of the attacker's colour, as the loop of `verificarVitoria` counts it,
does not decrease. -/
theorem simularAtaque_jogador_nao_perde (mapa : List Territorio) (o d : Nat) (cor : Int)
    (r1 r2 : Nat) (ho : o < mapa.length) (hd : d < mapa.length) (hne : o ≠ d)
    (hcor : cor = 0 ∨ cor = 1 ∨ cor = 2) :
    (ler (simularAtaque mapa o d cor r1 r2) o).cor_exercito = (ler mapa o).cor_exercito ∧
    (∀ k, (ler (simularAtaque mapa o d cor r1 r2) k).cor_exercito ≠ (ler mapa k).cor_exercito →
      (ler (simularAtaque mapa o d cor r1 r2) k).cor_exercito ≠ -1) ∧
    (∀ k, (ler (simularAtaque mapa o d cor r1 r2) k).num_tropas ≠ (ler mapa k).num_tropas →
      (ler (simularAtaque mapa o d cor r1 r2) k).num_tropas ≠ 0) ∧
    contarTerritorios mapa cor 0 mapa.length 0 ≤
      contarTerritorios (simularAtaque mapa o d cor r1 r2) cor 0
        (simularAtaque mapa o d cor r1 r2).length 0 := by
  refine ⟨?_, ?_, ?_, ?_⟩
  · rcases simularAtaque_pontual mapa o d cor r1 r2 ho hd hne o with h | ⟨_, h⟩ | ⟨hk, _⟩
    · rw [h]
    · rw [h]
    · exact absurd hk hne
  · intro k hk
    rcases simularAtaque_pontual mapa o d cor r1 r2 ho hd hne k with h | ⟨_, h⟩ | ⟨_, h⟩
    · rw [h] at hk; exact absurd rfl hk
    · rw [h] at hk; exact absurd rfl hk
    · rw [h]
      show cor ≠ -1
      omega
  · intro k hk
    rcases simularAtaque_pontual mapa o d cor r1 r2 ho hd hne k with h | ⟨hgt, h⟩ | ⟨_, h⟩
    · rw [h] at hk; exact absurd rfl hk
    · rw [h]
      show (ler mapa k).num_tropas - 1 ≠ 0
      omega
    · rw [h]
      show (1 : Int) ≠ 0
      decide
  · rw [contarTerritorios_total, contarTerritorios_total]
    exact_mod_cast possuidos_simularAtaque mapa o d cor r1 r2

/-- Witness for C10: the defender wins against territory 0 of the sample map; red still
owns territory 0 and still counts 2 territories. -/
theorem simularAtaque_jogador_nao_perde_witness :
    (ler (simularAtaque mapaExemplo 0 1 0 0 5) 0).cor_exercito = 0 ∧
    contarTerritorios mapaExemplo 0 0 5 0 ≤
      contarTerritorios (simularAtaque mapaExemplo 0 1 0 0 5) 0 0 5 0 :=
  have h := simularAtaque_jogador_nao_perde mapaExemplo 0 1 0 0 5 (by decide) (by decide)
    (by decide) (by decide)
  ⟨h.1, h.2.2.2⟩

/-! ## faseDeAtaque -/

/-- Claim C6 (amended): `faseDeAtaque` rejects an origin outside 0..4 as invalid; else an
origin not owned by the player as not controlled; else a destination outside 0..4 as
invalid; else equal indices as a self attack; else it calls `simularAtaque`.  On every
rejection the map is unchanged and the result does not depend on the dice. -/
theorem faseDeAtaque_validacao (mapa : List Territorio) (cor : Int) (o d : Int)
    (r1 r2 : Nat) :
    ((o < 0 ∨ o > 4) →
      faseDeAtaque mapa cor o d r1 r2 = (Desfecho.territorioInvalido, mapa)) ∧
    ((0 ≤ o ∧ o ≤ 4) → (ler mapa o.toNat).cor_exercito ≠ cor →
      faseDeAtaque mapa cor o d r1 r2 = (Desfecho.naoControla, mapa)) ∧
    ((0 ≤ o ∧ o ≤ 4) → (ler mapa o.toNat).cor_exercito = cor → (d < 0 ∨ d > 4) →
      faseDeAtaque mapa cor o d r1 r2 = (Desfecho.territorioInvalido, mapa)) ∧
    ((0 ≤ o ∧ o ≤ 4) → (ler mapa o.toNat).cor_exercito = cor → (0 ≤ d ∧ d ≤ 4) → o = d →
      faseDeAtaque mapa cor o d r1 r2 = (Desfecho.proprioTerritorio, mapa)) ∧
    ((0 ≤ o ∧ o ≤ 4) → (ler mapa o.toNat).cor_exercito = cor → (0 ≤ d ∧ d ≤ 4) → o ≠ d →
      faseDeAtaque mapa cor o d r1 r2
        = (Desfecho.batalha, simularAtaque mapa o.toNat d.toNat cor r1 r2)) ∧
    ((faseDeAtaque mapa cor o d r1 r2).1 ≠ Desfecho.batalha →
      (faseDeAtaque mapa cor o d r1 r2).2 = mapa ∧
      ∀ s1 s2 : Nat, faseDeAtaque mapa cor o d s1 s2 = faseDeAtaque mapa cor o d r1 r2) := by
  have hfora : ∀ x : Int, (x < 0 ∨ x ≥ (NUM_TERRITORIOS : Int)) ↔ (x < 0 ∨ x > 4) := by
    intro x
    simp only [NUM_TERRITORIOS, Nat.cast_ofNat]
    omega
  refine ⟨?_, ?_, ?_, ?_, ?_, ?_⟩
  · intro h
    simp only [faseDeAtaque, if_pos ((hfora o).mpr h)]
  · intro h hc
    have ho : ¬ (o < 0 ∨ o ≥ (NUM_TERRITORIOS : Int)) := by rw [hfora]; omega
    simp only [faseDeAtaque, if_neg ho, if_pos hc]
  · intro h hc hdf
    have ho : ¬ (o < 0 ∨ o ≥ (NUM_TERRITORIOS : Int)) := by rw [hfora]; omega
    simp only [faseDeAtaque, if_neg ho, if_neg (not_not.mpr hc), if_pos ((hfora d).mpr hdf)]
  · intro h hc hdd heq
    have ho : ¬ (o < 0 ∨ o ≥ (NUM_TERRITORIOS : Int)) := by rw [hfora]; omega
    have hdn : ¬ (d < 0 ∨ d ≥ (NUM_TERRITORIOS : Int)) := by rw [hfora]; omega
    simp only [faseDeAtaque, if_neg ho, if_neg (not_not.mpr hc), if_neg hdn, if_pos heq]
  · intro h hc hdd hneq
    have ho : ¬ (o < 0 ∨ o ≥ (NUM_TERRITORIOS : Int)) := by rw [hfora]; omega
    have hdn : ¬ (d < 0 ∨ d ≥ (NUM_TERRITORIOS : Int)) := by rw [hfora]; omega
    simp only [faseDeAtaque, if_neg ho, if_neg (not_not.mpr hc), if_neg hdn, if_neg hneq]
  · intro hb
    simp only [faseDeAtaque] at hb ⊢
    split_ifs at hb ⊢ <;> first | exact absurd rfl hb | exact ⟨rfl, fun _ _ => rfl⟩

/-- Witness for C6 (amended): red orders an attack from blue territory 1; from its own
territory 0 to index 7; from 0 to 0; and a real attack from 0 to 1. -/
theorem faseDeAtaque_validacao_witness :
    faseDeAtaque mapaExemplo 0 9 1 5 0 = (Desfecho.territorioInvalido, mapaExemplo) ∧
    faseDeAtaque mapaExemplo 0 1 0 5 0 = (Desfecho.naoControla, mapaExemplo) ∧
    faseDeAtaque mapaExemplo 0 0 7 5 0 = (Desfecho.territorioInvalido, mapaExemplo) ∧
    faseDeAtaque mapaExemplo 0 0 0 5 0 = (Desfecho.proprioTerritorio, mapaExemplo) ∧
    faseDeAtaque mapaExemplo 0 0 1 5 0
      = (Desfecho.batalha, simularAtaque mapaExemplo 0 1 0 5 0) :=
  ⟨(faseDeAtaque_validacao mapaExemplo 0 9 1 5 0).1 (by decide),
   (faseDeAtaque_validacao mapaExemplo 0 1 0 5 0).2.1 (by decide) (by decide),
   (faseDeAtaque_validacao mapaExemplo 0 0 7 5 0).2.2.1 (by decide) (by decide) (by decide),
   (faseDeAtaque_validacao mapaExemplo 0 0 0 5 0).2.2.2.1 (by decide) (by decide) (by decide)
     (by decide),
   (faseDeAtaque_validacao mapaExemplo 0 0 1 5 0).2.2.2.2.1 (by decide) (by decide)
     (by decide) (by decide)⟩

/-- Counterexample to C6 as stated: the origin 0 is in range but blue does not own it and
the destination 7 is out of range; the order is rejected as not controlled, not as an
invalid index, so "invalid index whenever either index is out of range" fails. -/
theorem faseDeAtaque_ordem_counterexample :
    (ler mapaExemplo 0).cor_exercito ≠ 1 ∧
    faseDeAtaque mapaExemplo 1 0 7 5 0 = (Desfecho.naoControla, mapaExemplo) ∧
    ¬ (∀ (mapa : List Territorio) (cor o d : Int) (r1 r2 : Nat),
        (o < 0 ∨ o > 4 ∨ d < 0 ∨ d > 4) →
        (faseDeAtaque mapa cor o d r1 r2).1 = Desfecho.territorioInvalido) := by
  refine ⟨by decide, by decide, ?_⟩
  intro h
  have h1 := h mapaExemplo 1 0 7 5 0 (by decide)
  revert h1
  decide

/-- An order either leaves the map alone or runs a validated attack on it. -/
theorem faseDeAtaque_casos (mapa : List Territorio) (cor : Int) (o d : Int) (r1 r2 : Nat) :
    (faseDeAtaque mapa cor o d r1 r2).2 = mapa ∨
    ∃ i j : Nat, i < NUM_TERRITORIOS ∧ j < NUM_TERRITORIOS ∧ i ≠ j ∧
      (ler mapa i).cor_exercito = cor ∧
      (faseDeAtaque mapa cor o d r1 r2).2 = simularAtaque mapa i j cor r1 r2 := by
  simp only [faseDeAtaque]
  split_ifs with h1 h2 h3 h4
  · exact Or.inl rfl
  · exact Or.inl rfl
  · exact Or.inl rfl
  · exact Or.inl rfl
  · refine Or.inr ⟨o.toNat, d.toNat, ?_, ?_, ?_, not_not.mp h2, rfl⟩
    · simp only [NUM_TERRITORIOS, Nat.cast_ofNat] at h1 ⊢; omega
    · simp only [NUM_TERRITORIOS, Nat.cast_ofNat] at h3 ⊢; omega
    · simp only [NUM_TERRITORIOS, Nat.cast_ofNat] at h1 h3; omega

/-- A property of maps kept by every validated attack is kept by every list of orders. -/
theorem jogar_preserva (P : List Territorio → Prop) (cor : Int)
    (hpasso : ∀ (mapa : List Territorio) (i j : Nat) (r1 r2 : Nat), P mapa →
      i < NUM_TERRITORIOS → j < NUM_TERRITORIOS → i ≠ j → (ler mapa i).cor_exercito = cor →
      P (simularAtaque mapa i j cor r1 r2)) :
    ∀ (ordens : List Ordem) (mapa : List Territorio), P mapa → P (jogar mapa cor ordens) := by
  intro ordens
  induction ordens with
  | nil => intro mapa h; exact h
  | cons a resto ih =>
    intro mapa h
    simp only [jogar]
    apply ih
    rcases faseDeAtaque_casos mapa cor a.origem a.destino a.r1 a.r2 with
      hc | ⟨i, j, hi, hj, hij, hdono, hc⟩
    · rw [hc]; exact h
    · rw [hc]; exact hpasso mapa i j a.r1 a.r2 h hi hj hij hdono

/-! ## The initial map -/

/-- The map `inicializarTerritorios` leaves in an array of five cells. -/
theorem inicializarTerritorios_eq (mapa : List Territorio) (rand : Nat → Nat)
    (h : mapa.length = NUM_TERRITORIOS) :
    inicializarTerritorios mapa rand =
      [⟨"América", ((rand 0 % 3 : Nat) : Int), 10 + ((rand 1 % 6 : Nat) : Int)⟩,
       ⟨"Europa", ((rand 2 % 3 : Nat) : Int), 10 + ((rand 3 % 6 : Nat) : Int)⟩,
       ⟨"Ásia", ((rand 4 % 3 : Nat) : Int), 10 + ((rand 5 % 6 : Nat) : Int)⟩,
       ⟨"África", ((rand 6 % 3 : Nat) : Int), 10 + ((rand 7 % 6 : Nat) : Int)⟩,
       ⟨"Oceania", ((rand 8 % 3 : Nat) : Int), 10 + ((rand 9 % 6 : Nat) : Int)⟩] := by
  match mapa, h with
  | [_, _, _, _, _], _ => rfl

theorem inicial_todos (Q : Territorio → Prop) (mapa : List Territorio) (rand : Nat → Nat)
    (h : mapa.length = NUM_TERRITORIOS)
    (hq : ∀ (s : String) (a b : Nat), a < 3 → b < 6 → Q ⟨s, (a : Int), 10 + (b : Int)⟩) :
    ∀ t ∈ inicializarTerritorios mapa rand, Q t := by
  rw [inicializarTerritorios_eq mapa rand h]
  intro t ht
  simp only [List.mem_cons, List.mem_singleton, List.not_mem_nil, or_false] at ht
  rcases ht with rfl | rfl | rfl | rfl | rfl <;>
    exact hq _ _ _ (Nat.mod_lt _ (by decide)) (Nat.mod_lt _ (by decide))

theorem length_inicializarTerritorios (mapa : List Territorio) (rand : Nat → Nat)
    (h : mapa.length = NUM_TERRITORIOS) :
    (inicializarTerritorios mapa rand).length = NUM_TERRITORIOS := by
  rw [inicializarTerritorios_eq mapa rand h]
  rfl

/-! ## The data invariant -/

/-- Claim C7: every map produced by `inicializarTerritorios` in an array of five cells
satisfies the data invariant (troops never negative, troops 0 exactly for the neutral
owner -1), and an attack between two distinct territories of the map, from a territory
owned by the player whose colour is 0, 1 or 2, keeps the invariant for all dice. -/
theorem invariante_territorios :
    (∀ (mapa : List Territorio) (rand : Nat → Nat), mapa.length = NUM_TERRITORIOS →
      invariante (inicializarTerritorios mapa rand)) ∧
    (∀ (mapa : List Territorio) (o d : Nat) (cor : Int) (r1 r2 : Nat),
      invariante mapa → o < mapa.length → d < mapa.length → o ≠ d →
      (ler mapa o).cor_exercito = cor → (cor = 0 ∨ cor = 1 ∨ cor = 2) →
      invariante (simularAtaque mapa o d cor r1 r2)) := by
  constructor
  · intro mapa rand h
    apply inicial_todos (fun t => 0 ≤ t.num_tropas ∧ (t.num_tropas = 0 ↔ t.cor_exercito = -1)) mapa rand h
    intro s a b _ _
    show (0 : Int) ≤ 10 + (b : Int) ∧ ((10 : Int) + (b : Int) = 0 ↔ (a : Int) = -1)
    omega
  · intro mapa o d cor r1 r2 hinv ho hd hne _ hcor
    have hinv2 := (todos_iff_ler _ mapa).mp hinv
    apply (todos_iff_ler (fun t => 0 ≤ t.num_tropas ∧ (t.num_tropas = 0 ↔ t.cor_exercito = -1)) _).mpr
    intro k hk
    rw [length_simularAtaque] at hk
    have hkinv := hinv2 k hk
    rcases simularAtaque_pontual mapa o d cor r1 r2 ho hd hne k with h | ⟨hgt, h⟩ | ⟨_, h⟩
    · rw [h]; exact hkinv
    · rw [h]
      show 0 ≤ (ler mapa k).num_tropas - 1 ∧
        ((ler mapa k).num_tropas - 1 = 0 ↔ (ler mapa k).cor_exercito = -1)
      omega
    · rw [h]
      show (0 : Int) ≤ 1 ∧ ((1 : Int) = 0 ↔ cor = -1)
      omega

/-- Witness for C7: the map of a start, and the sample map before and after a conquest. -/
theorem invariante_territorios_witness :
    invariante (inicializarTerritorios alocarMapa randAzul) ∧
    invariante mapaExemplo ∧ invariante (simularAtaque mapaExemplo 0 1 0 5 0) :=
  have h : invariante mapaExemplo := by unfold invariante; decide
  ⟨invariante_territorios.1 alocarMapa randAzul (by decide), h,
    invariante_territorios.2 mapaExemplo 0 1 0 5 0 h (by decide) (by decide) (by decide)
      (by decide) (by decide)⟩

/-! ## Conservation of the territories -/

theorem possuidos_soma (mapa : List Territorio) (h : ∀ t ∈ mapa, corValida t) :
    possuidos mapa 0 + possuidos mapa 1 + possuidos mapa 2 + possuidos mapa (-1)
      = mapa.length := by
  induction mapa with
  | nil => rfl
  | cons a l ih =>
    have hl := ih (fun t ht => h t (List.mem_cons_of_mem a ht))
    have ha : corValida a := h a (List.mem_cons_self a l)
    simp only [possuidos, List.countP_cons, List.length_cons] at hl ⊢
    rcases ha with ha | ha | ha | ha <;> simp [ha] <;> omega

/-- Length five and valid owners are kept by a validated attack of a colour 0, 1 or 2. -/
theorem conservacao_passo (cor : Int) (hcor : cor = 0 ∨ cor = 1 ∨ cor = 2)
    (mapa : List Territorio) (i j : Nat) (r1 r2 : Nat)
    (h : mapa.length = NUM_TERRITORIOS ∧ ∀ t ∈ mapa, corValida t)
    (hi : i < NUM_TERRITORIOS) (hj : j < NUM_TERRITORIOS) (hij : i ≠ j) :
    (simularAtaque mapa i j cor r1 r2).length = NUM_TERRITORIOS ∧
      ∀ t ∈ simularAtaque mapa i j cor r1 r2, corValida t := by
  obtain ⟨hlen, hval⟩ := h
  refine ⟨by rw [length_simularAtaque]; exact hlen, ?_⟩
  have hval2 := (todos_iff_ler _ mapa).mp hval
  apply (todos_iff_ler corValida _).mpr
  intro k hk
  rw [length_simularAtaque] at hk
  have hkv := hval2 k hk
  rcases simularAtaque_pontual mapa i j cor r1 r2 (by omega) (by omega) hij k with
    h | ⟨_, h⟩ | ⟨_, h⟩
  · rw [h]; exact hkv
  · rw [h]; exact hkv
  · rw [h]
    show cor = 0 ∨ cor = 1 ∨ cor = 2 ∨ cor = -1
    omega

theorem cor_jogador_valida (rand : Nat → Nat) :
    (iniciarJogo rand).cor_jogador = 0 ∨ (iniciarJogo rand).cor_jogador = 1 ∨
      (iniciarJogo rand).cor_jogador = 2 := by
  have : rand 10 % 3 < 3 := Nat.mod_lt _ (by decide)
  simp only [iniciarJogo, NUM_CORES_EXERCITO]
  omega

/-- Every map of a game has five territories, each with a valid owner. -/
theorem partida_valida (rand : Nat → Nat) (ordens : List Ordem) :
    (partida rand ordens).length = NUM_TERRITORIOS ∧
      ∀ t ∈ partida rand ordens, corValida t := by
  apply jogar_preserva (fun m => m.length = NUM_TERRITORIOS ∧ ∀ t ∈ m, corValida t)
  · intro mapa i j r1 r2 h hi hj hij _
    exact conservacao_passo _ (cor_jogador_valida rand) mapa i j r1 r2 h hi hj hij
  · have hlen : alocarMapa.length = NUM_TERRITORIOS := by decide
    refine ⟨length_inicializarTerritorios alocarMapa rand hlen, ?_⟩
    apply inicial_todos corValida alocarMapa rand hlen
    intro s a b ha _
    show (a : Int) = 0 ∨ (a : Int) = 1 ∨ (a : Int) = 2 ∨ (a : Int) = -1
    omega

/-- Claim C8: in every map reached from a start of the game by any list of attack orders,
with any dice, there are five territories, each owned by colour 0, 1, 2 or the neutral
value -1, and the counts of the four owners, as the loop of `verificarVitoria` counts
them, add up to 5. -/
theorem conservacao_territorios (rand : Nat → Nat) (ordens : List Ordem) :
    (partida rand ordens).length = 5 ∧
    (∀ t ∈ partida rand ordens, t.cor_exercito = 0 ∨ t.cor_exercito = 1 ∨
      t.cor_exercito = 2 ∨ t.cor_exercito = -1) ∧
    contarTerritorios (partida rand ordens) 0 0 5 0
      + contarTerritorios (partida rand ordens) 1 0 5 0
      + contarTerritorios (partida rand ordens) 2 0 5 0
      + contarTerritorios (partida rand ordens) (-1) 0 5 0 = 5 := by
  obtain ⟨hlen, hval⟩ := partida_valida rand ordens
  have hlen5 : (partida rand ordens).length = 5 := hlen
  refine ⟨hlen5, hval, ?_⟩
  have hsoma := possuidos_soma (partida rand ordens) hval
  have h := fun c => contarTerritorios_total (partida rand ordens) c
  rw [hlen5] at h hsoma
  rw [h, h, h, h]
  exact_mod_cast hsoma

/-! ## The mission against the player's own colour -/

theorem possuidos_jogar (cor : Int) (n : Nat) :
    ∀ (ordens : List Ordem) (mapa : List Territorio),
      n ≤ possuidos mapa cor → n ≤ possuidos (jogar mapa cor ordens) cor :=
  jogar_preserva (fun m => n ≤ possuidos m cor) cor
    (fun mapa i j r1 r2 h _ _ _ _ => le_trans h (possuidos_simularAtaque mapa i j cor r1 r2))

/-- Counterexample to C9 as stated: a start where every territory is blue, the player is
red and the mission is to destroy the red army; `verificarVitoria` returns 1 at once. -/
theorem missao_propria_cor_counterexample :
    (iniciarJogo randSemVermelho).missao.tipo = MISSAO_DESTRUIR_EXERCITO ∧
    (iniciarJogo randSemVermelho).missao.alvo = (iniciarJogo randSemVermelho).cor_jogador ∧
    (iniciarJogo randSemVermelho).cor_jogador = 0 ∧
    (iniciarJogo randSemVermelho).mapa.map (fun t => t.cor_exercito) = [1, 1, 1, 1, 1] ∧
    verificarVitoria (partida randSemVermelho []) 5 (iniciarJogo randSemVermelho).missao
      (iniciarJogo randSemVermelho).cor_jogador = 1 := by
  decide

/-- Claim C9 (amended): in a game whose mission is to destroy the player's own colour and
in which the player owns at least one territory of the initial map, `verificarVitoria`
returns 0 in the initial state and after every list of attack orders, with any dice. -/
theorem missao_propria_cor_insatisfazivel (rand : Nat → Nat) (ordens : List Ordem)
    (htipo : (iniciarJogo rand).missao.tipo = MISSAO_DESTRUIR_EXERCITO)
    (halvo : (iniciarJogo rand).missao.alvo = (iniciarJogo rand).cor_jogador)
    (hposse : ∃ t ∈ (iniciarJogo rand).mapa,
      t.cor_exercito = (iniciarJogo rand).cor_jogador) :
    verificarVitoria (partida rand ordens) 5 (iniciarJogo rand).missao
      (iniciarJogo rand).cor_jogador = 0 := by
  have hlen : (5 : Int) = ((partida rand ordens).length : Int) := by
    rw [(partida_valida rand ordens).1]; rfl
  apply (verificarVitoria_resultado _ _ _ _ hlen).2.mpr
  have h1 : 1 ≤ possuidos (iniciarJogo rand).mapa (iniciarJogo rand).cor_jogador := by
    obtain ⟨t, ht, hc⟩ := hposse
    exact List.countP_pos_iff.mpr ⟨t, ht, by simpa using hc⟩
  have h2 : 1 ≤ possuidos (partida rand ordens) (iniciarJogo rand).cor_jogador :=
    possuidos_jogar _ 1 ordens _ h1
  obtain ⟨t, ht, hc⟩ := List.countP_pos_iff.mp h2
  have hc2 : t.cor_exercito = (iniciarJogo rand).cor_jogador := by simpa using hc
  rintro (⟨_, hall⟩ | ⟨h, _⟩)
  · exact hall t ht (by rw [halvo]; exact hc2)
  · rw [htipo] at h
    exact absurd h (by decide)

/-- Witness for C9 (amended): the player is blue, owns territory 2, must destroy the blue
army, and orders an attack from territory 2 to territory 0. -/
theorem missao_propria_cor_insatisfazivel_witness :
    (iniciarJogo randAzul).cor_jogador = 1 ∧
    (ler (iniciarJogo randAzul).mapa 2).cor_exercito = 1 ∧
    verificarVitoria (partida randAzul []) 5 (iniciarJogo randAzul).missao 1 = 0 ∧
    verificarVitoria (partida randAzul [⟨2, 0, 5, 0⟩]) 5 (iniciarJogo randAzul).missao 1
      = 0 :=
  ⟨by decide, by decide,
    missao_propria_cor_insatisfazivel randAzul [] (by decide) (by decide) (by decide),
    missao_propria_cor_insatisfazivel randAzul [⟨2, 0, 5, 0⟩] (by decide) (by decide)
      (by decide)⟩

end War
